import Mathlib

/-
Verification of the checkpoint orchestration logic
(elastic/core/notebook/checkpoint.py) against its specification.

The embedding models the function `checkpoint` and the data it manipulates.
External collaborators (the Selector optimizer, the `migrate` checkpoint
writer, the `profile_variable_size` routine, the Jupyter shell namespace,
the fingerprint tracker) are modelled at their interface boundary:
  * a live object in the shell namespace carries the value that
    `getattr(obj, "__module__", None)` would return and the byte count
    `profile_variable_size(obj)` would measure;
  * a fingerprint entry carries its set of storage-region identifiers
    (component [1] of the tuple) and whether component [2] is an
    `UnserializableObj` instance;
  * `selector.select_vss` and `migrate` are arbitrary function parameters
    that either succeed or fail (a Python exception is modelled as an
    `Except.error`, which aborts the rest of the function body).
Logging (`write_log_location`) and the optional `elastic_notebook` hook are
modelled in their default (absent) configuration, matching a call with
`write_log_location=None, elastic_notebook=None`; both are pure diagnostics
with no influence on the values the claims are about.
-/

/-- Sizes stored in `VariableSnapshot.size`: either a measured byte count or
`np.inf` ("unmigratable"). -/
inductive PySize where
  | finite (bytes : Nat) : PySize
  | infinity : PySize
deriving DecidableEq, Repr

/-- One version of one named variable (the graph's VariableSnapshot). -/
structure VariableSnapshot where
  name : String
  version : Nat
  deleted : Bool
  size : PySize
deriving DecidableEq, Repr

/-- One executed cell (the graph's compute edge); `checkpoint` only reads
`cell_num` and `cell_runtime` for printing. -/
structure ComputeEdge where
  cell_num : Nat
  cell_runtime : Nat
deriving DecidableEq, Repr

/-- A live object in `shell.user_ns`, modelled at the interface `checkpoint`
uses: `moduleAttr` is `getattr(obj, "__module__", None)` and `profiledBytes`
is the byte count the external routine `profile_variable_size` returns. -/
structure PyObj where
  moduleAttr : Option String
  profiledBytes : Nat
deriving DecidableEq, Repr

/-- A `fingerprint_dict` entry, modelled at the interface `checkpoint` uses:
`regions` is the set of storage-region identifiers in component [1], and
`unserializable` records whether component [2] is an `UnserializableObj`. -/
structure FingerprintEntry where
  regions : List Nat
  unserializable : Bool
deriving DecidableEq, Repr

/-- The dependency graph as read by `checkpoint`: `variable_snapshots` maps a
variable name to its version list (latest last), `compute_edges` is the rest
of the graph topology, untouched by `checkpoint`. -/
structure DependencyGraph where
  variable_snapshots : List (String × List VariableSnapshot)
  compute_edges : List ComputeEdge
deriving DecidableEq, Repr

/-- The Selector object, modelled by the fields `checkpoint` reads/writes:
`dependency_graph`, `active_vss` and `overlapping_vss` are assigned before
`select_vss` runs; `recomputation_ces` and `overlapping_vss` are read
afterwards when calling `migrate`. -/
structure Selector where
  dependency_graph : Option DependencyGraph
  active_vss : List VariableSnapshot
  overlapping_vss : List (VariableSnapshot × VariableSnapshot)
  recomputation_ces : List ComputeEdge
deriving DecidableEq, Repr

/-- The ways a `checkpoint` call can fail (Python exceptions): a KeyError
from `shell.user_ns[name]`, or an exception escaping `selector.select_vss`
or `migrate`. -/
inductive CheckpointErr where
  | keyError (name : String) : CheckpointErr
  | selectorErr (msg : String) : CheckpointErr
  | migrateErr (msg : String) : CheckpointErr
deriving DecidableEq, Repr

/-- The full argument tuple of the `migrate(...)` call at the end of
`checkpoint`. -/
structure MigrateArgs where
  graph : DependencyGraph
  shell_ns : List (String × PyObj)
  vss_to_migrate : List VariableSnapshot
  vss_to_recompute : List VariableSnapshot
  ces_to_recompute : List ComputeEdge
  udfs : List String
  recomputation_ces : List ComputeEdge
  overlapping_vss : List (VariableSnapshot × VariableSnapshot)
  filename : String
deriving DecidableEq, Repr

/-- Observable outcome of a successful `checkpoint` call: the profiled active
set, the overlap pairs, the selector state handed to and returned by
`select_vss`, the arguments `migrate` was invoked with, the returned
`migrate_success` flag, and the graph as left by the in-place size updates. -/
structure CheckpointRun where
  active_vss : List VariableSnapshot
  overlapping_vss : List (VariableSnapshot × VariableSnapshot)
  selector_before : Selector
  selector_after : Selector
  margs : MigrateArgs
  migrate_success : Bool
  graph_after : DependencyGraph
deriving DecidableEq, Repr

/-- Substring occurrence on character lists (the Python `pat in s` test). -/
def hasSublist (pat : List Char) : List Char → Bool
  | [] => pat.isEmpty
  | c :: rest => (List.isPrefixOf pat (c :: rest)) || hasSublist pat rest

/-- The Python `pat in hay` test on strings. -/
def strContains (hay pat : String) : Bool := hasSublist pat.toList hay.toList

/-- The blacklist test of lines 60 and 66:
`attr_str and ("dataprep.eda" in attr_str or "bokeh" in attr_str)`,
where `attr_str = getattr(obj, "__module__", None)` (an empty string is
falsy in Python). -/
def blacklisted (attr : Option String) : Bool :=
  match attr with
  | none => false
  | some s => (!(s == "")) && (strContains s "dataprep.eda" || strContains s "bokeh")

/-- Lines 44-51: the active set. For each version list the code tests only
`vs_list[-1].deleted` and, when false, adds `vs_list[-1]`. -/
def activeVssOf (g : DependencyGraph) : List VariableSnapshot :=
  g.variable_snapshots.filterMap (fun p =>
    match p.2.getLast? with
    | some vs => if vs.deleted then none else some vs
    | none => none)

/-- Lines 54-71, body of the profiling loop for one active VS:
skip (with a printed warning) when the name is missing from
`fingerprint_dict`; otherwise look the name up in `shell.user_ns` (a missing
name raises a KeyError here, line 60); then set `size` to infinity for an
unserializable fingerprint or a blacklisted `__module__`, and to the
profiled byte count otherwise. -/
def profileVs (fp : List (String × FingerprintEntry)) (ns : List (String × PyObj))
    (vs : VariableSnapshot) : Except CheckpointErr VariableSnapshot :=
  match fp.lookup vs.name with
  | none => Except.ok vs
  | some fpe =>
    match ns.lookup vs.name with
    | none => Except.error (CheckpointErr.keyError vs.name)
    | some obj =>
      if fpe.unserializable then Except.ok { vs with size := PySize.infinity }
      else if blacklisted obj.moduleAttr then Except.ok { vs with size := PySize.infinity }
      else Except.ok { vs with size := PySize.finite obj.profiledBytes }

/-- Lines 54-71, the whole profiling loop: each active VS in turn, aborting
at the first KeyError. -/
def profileLoop (fp : List (String × FingerprintEntry)) (ns : List (String × PyObj)) :
    List VariableSnapshot → Except CheckpointErr (List VariableSnapshot)
  | [] => Except.ok []
  | vs :: rest =>
    match profileVs fp ns vs with
    | Except.error e => Except.error e
    | Except.ok vs2 =>
      match profileLoop fp ns rest with
      | Except.error e => Except.error e
      | Except.ok rest2 => Except.ok (vs2 :: rest2)

/-- Truthiness of `s1.intersection(s2)` on the storage-region sets. -/
def regionsIntersect (r1 r2 : List Nat) : Bool := r1.any (fun x => r2.contains x)

/-- The test deciding whether the inner loop body (lines 78-88) appends the
ordered pair (v1, v2): the two VSs are distinct objects, both names are
present in `fingerprint_dict`, and their region sets intersect. -/
def overlapPair (fp : List (String × FingerprintEntry))
    (v1 v2 : VariableSnapshot) : Bool :=
  if v1 = v2 then false
  else
    match fp.lookup v1.name, fp.lookup v2.name with
    | some f1, some f2 => regionsIntersect f1.regions f2.regions
    | _, _ => false

/-- Lines 75-88: the double loop over `active_vss` building
`overlapping_vss` (a list of ordered pairs). -/
def overlappingVssOf (fp : List (String × FingerprintEntry))
    (active : List VariableSnapshot) : List (VariableSnapshot × VariableSnapshot) :=
  active.flatMap (fun v1 =>
    active.filterMap (fun v2 =>
      if overlapPair fp v1 v2 then some (v1, v2) else none))

/-- The graph as left by the in-place `active_vs.size = ...` assignments of
the profiling loop: the active VSs live inside the graph's version lists, so
mutating them rewrites the last element of each non-deleted list. -/
def updateLastVs (fp : List (String × FingerprintEntry)) (ns : List (String × PyObj))
    (l : List VariableSnapshot) : List VariableSnapshot :=
  match l.getLast? with
  | none => l
  | some vs =>
    if vs.deleted then l
    else
      match profileVs fp ns vs with
      | Except.ok vs2 => l.dropLast ++ [vs2]
      | Except.error _ => l

/-- The whole graph after the profiling loop's in-place size updates. -/
def profiledGraph (fp : List (String × FingerprintEntry)) (ns : List (String × PyObj))
    (g : DependencyGraph) : DependencyGraph :=
  { g with variable_snapshots :=
      g.variable_snapshots.map (fun p => (p.1, updateLastVs fp ns p.2)) }

/-- Lines 124-126: the field assignments on the selector before
`select_vss` runs. -/
def selectorLoaded (sel : Selector) (g2 : DependencyGraph)
    (active : List VariableSnapshot)
    (ov : List (VariableSnapshot × VariableSnapshot)) : Selector :=
  { sel with dependency_graph := some g2, active_vss := active, overlapping_vss := ov }

/-- Line 141: `vss_to_recompute = active_vss - vss_to_migrate`
(set difference). -/
def vssToRecompute (active m : List VariableSnapshot) : List VariableSnapshot :=
  active.filter (fun v => decide (v ∉ m))

/-- Lines 193-203: the argument tuple handed to `migrate`, including the
selector state `selector.recomputation_ces` and `selector.overlapping_vss`
read after `select_vss` returned. -/
def margsOf (g2 : DependencyGraph) (ns : List (String × PyObj))
    (active m : List VariableSnapshot) (c : List ComputeEdge)
    (udfs : List String) (sel2 : Selector) (filename : String) : MigrateArgs :=
  { graph := g2
    shell_ns := ns
    vss_to_migrate := m
    vss_to_recompute := vssToRecompute active m
    ces_to_recompute := c
    udfs := udfs
    recomputation_ces := sel2.recomputation_ces
    overlapping_vss := sel2.overlapping_vss
    filename := filename }

/-- The `checkpoint` function (lines 14-222) with
`write_log_location=None, elastic_notebook=None`:
compute the active set, profile sizes, compute overlap pairs, load the
selector, run `select_vss`, take the set difference, call `migrate`, and
return `migrate_success` (a constant `True`). `selectVssFn` and `migrateFn`
are the external collaborators; an `Except.error` from either aborts the
call, as a Python exception would. -/
def checkpoint
    (selectVssFn : Selector →
      Except String (List VariableSnapshot × List ComputeEdge × Selector))
    (migrateFn : MigrateArgs → Except String Unit)
    (g : DependencyGraph) (ns : List (String × PyObj))
    (fp : List (String × FingerprintEntry)) (sel : Selector)
    (udfs : List String) (filename : String) :
    Except CheckpointErr CheckpointRun :=
  match profileLoop fp ns (activeVssOf g) with
  | Except.error e => Except.error e
  | Except.ok active =>
    let g2 := profiledGraph fp ns g
    let ov := overlappingVssOf fp active
    let sel1 := selectorLoaded sel g2 active ov
    match selectVssFn sel1 with
    | Except.error e => Except.error (CheckpointErr.selectorErr e)
    | Except.ok res =>
      let sel2 := res.2.2
      let margs := margsOf g2 ns active res.1 res.2.1 udfs sel2 filename
      match migrateFn margs with
      | Except.error e => Except.error (CheckpointErr.migrateErr e)
      | Except.ok _ =>
        Except.ok
          { active_vss := active
            overlapping_vss := ov
            selector_before := sel1
            selector_after := sel2
            margs := margs
            migrate_success := true
            graph_after := g2 }

/-- Spec-following definition of the active set, for comparison with
`activeVssOf`: "returns, for every tracked name, the most recent VS not
marked deleted". -/
def specActiveVssOf (g : DependencyGraph) : List VariableSnapshot :=
  g.variable_snapshots.filterMap (fun p =>
    (p.2.filter (fun vs => !vs.deleted)).getLast?)

/-! ### Helper lemmas -/

theorem profileVs_shape {fp : List (String × FingerprintEntry)}
    {ns : List (String × PyObj)} {vs vs2 : VariableSnapshot}
    (h : profileVs fp ns vs = Except.ok vs2) :
    vs2.name = vs.name ∧ vs2.version = vs.version ∧ vs2.deleted = vs.deleted := by
  unfold profileVs at h
  cases hfp : List.lookup vs.name fp with
  | none => rw [hfp] at h; cases h; exact ⟨rfl, rfl, rfl⟩
  | some fpe =>
    rw [hfp] at h
    cases hns : List.lookup vs.name ns with
    | none => rw [hns] at h; cases h
    | some obj =>
      rw [hns] at h
      by_cases h1 : fpe.unserializable
      · simp [h1] at h; cases h; exact ⟨rfl, rfl, rfl⟩
      · by_cases h2 : blacklisted obj.moduleAttr
        · simp [h1, h2] at h; rw [← h]; exact ⟨rfl, rfl, rfl⟩
        · simp [h1, h2] at h; rw [← h]; exact ⟨rfl, rfl, rfl⟩

theorem profileVs_error_shape {fp : List (String × FingerprintEntry)}
    {ns : List (String × PyObj)} {vs : VariableSnapshot} {e : CheckpointErr}
    (h : profileVs fp ns vs = Except.error e) :
    e = CheckpointErr.keyError vs.name := by
  unfold profileVs at h
  cases hfp : List.lookup vs.name fp with
  | none => rw [hfp] at h; cases h
  | some fpe =>
    rw [hfp] at h
    cases hns : List.lookup vs.name ns with
    | none => rw [hns] at h; cases h; rfl
    | some obj =>
      rw [hns] at h
      by_cases h1 : fpe.unserializable
      · simp [h1] at h
      · by_cases h2 : blacklisted obj.moduleAttr
        · simp [h1, h2] at h
        · simp [h1, h2] at h

theorem profileVs_skip {fp : List (String × FingerprintEntry)}
    {ns : List (String × PyObj)} {vs : VariableSnapshot}
    (h : List.lookup vs.name fp = none) :
    profileVs fp ns vs = Except.ok vs := by
  unfold profileVs
  rw [h]

theorem profileLoop_ok_mem {fp : List (String × FingerprintEntry)}
    {ns : List (String × PyObj)} {l l2 : List VariableSnapshot}
    {vs vs2 : VariableSnapshot}
    (hloop : profileLoop fp ns l = Except.ok l2) (hmem : vs ∈ l)
    (hvs : profileVs fp ns vs = Except.ok vs2) : vs2 ∈ l2 := by
  induction l generalizing l2 with
  | nil => cases hmem
  | cons a rest ih =>
    unfold profileLoop at hloop
    cases ha : profileVs fp ns a with
    | error e => rw [ha] at hloop; cases hloop
    | ok a2 =>
      rw [ha] at hloop
      cases hrest : profileLoop fp ns rest with
      | error e => rw [hrest] at hloop; cases hloop
      | ok rest2 =>
        rw [hrest] at hloop
        cases hloop
        rcases List.mem_cons.mp hmem with h | h
        · subst h
          rw [ha] at hvs
          cases hvs
          exact List.mem_cons_self _ _
        · exact List.mem_cons_of_mem _ (ih hrest h)

theorem profileLoop_error_shape {fp : List (String × FingerprintEntry)}
    {ns : List (String × PyObj)} {l : List VariableSnapshot} {e : CheckpointErr}
    (h : profileLoop fp ns l = Except.error e) :
    ∃ n, e = CheckpointErr.keyError n := by
  induction l with
  | nil => unfold profileLoop at h; cases h
  | cons a rest ih =>
    unfold profileLoop at h
    cases ha : profileVs fp ns a with
    | error e2 =>
      rw [ha] at h
      cases h
      exact ⟨a.name, profileVs_error_shape ha⟩
    | ok a2 =>
      rw [ha] at h
      cases hrest : profileLoop fp ns rest with
      | error e2 => rw [hrest] at h; cases h; exact ih hrest
      | ok rest2 => rw [hrest] at h; cases h

theorem profileLoop_error_of_mem {fp : List (String × FingerprintEntry)}
    {ns : List (String × PyObj)} {l : List VariableSnapshot}
    {vs : VariableSnapshot} {e0 : CheckpointErr}
    (hmem : vs ∈ l) (hvs : profileVs fp ns vs = Except.error e0) :
    ∃ e, profileLoop fp ns l = Except.error e := by
  induction l with
  | nil => cases hmem
  | cons a rest ih =>
    rcases List.mem_cons.mp hmem with h | h
    · subst h
      refine ⟨e0, ?_⟩
      unfold profileLoop
      rw [hvs]
    · cases ha : profileVs fp ns a with
      | error e2 =>
        refine ⟨e2, ?_⟩
        unfold profileLoop
        rw [ha]
      | ok a2 =>
        rcases ih h with ⟨e, he⟩
        refine ⟨e, ?_⟩
        unfold profileLoop
        rw [ha, he]

theorem overlapPair_iff {fp : List (String × FingerprintEntry)}
    {v1 v2 : VariableSnapshot} :
    overlapPair fp v1 v2 = true ↔
      v1 ≠ v2 ∧ ∃ f1 f2, List.lookup v1.name fp = some f1 ∧
        List.lookup v2.name fp = some f2 ∧
        regionsIntersect f1.regions f2.regions = true := by
  unfold overlapPair
  by_cases h : v1 = v2
  · simp [h]
  · simp only [h, if_false]
    cases h1 : List.lookup v1.name fp with
    | none => simp [h]
    | some f1 =>
      cases h2 : List.lookup v2.name fp with
      | none => simp [h]
      | some f2 => simp [h]

theorem mem_overlappingVssOf {fp : List (String × FingerprintEntry)}
    {active : List VariableSnapshot} {v1 v2 : VariableSnapshot} :
    (v1, v2) ∈ overlappingVssOf fp active ↔
      v1 ∈ active ∧ v2 ∈ active ∧ overlapPair fp v1 v2 = true := by
  unfold overlappingVssOf
  rw [List.mem_flatMap]
  constructor
  · rintro ⟨a, ha, hmem⟩
    rcases List.mem_filterMap.mp hmem with ⟨b, hb, hcond⟩
    by_cases hov : overlapPair fp a b
    · simp only [hov, if_true, Option.some.injEq, Prod.mk.injEq] at hcond
      rcases hcond with ⟨h1, h2⟩
      subst h1; subst h2
      exact ⟨ha, hb, hov⟩
    · simp [hov] at hcond
  · rintro ⟨h1, h2, hov⟩
    refine ⟨v1, h1, List.mem_filterMap.mpr ⟨v2, h2, ?_⟩⟩
    simp [hov]

theorem checkpoint_ok_inv
    {selectVssFn : Selector →
      Except String (List VariableSnapshot × List ComputeEdge × Selector)}
    {migrateFn : MigrateArgs → Except String Unit}
    {g : DependencyGraph} {ns : List (String × PyObj)}
    {fp : List (String × FingerprintEntry)} {sel : Selector}
    {udfs : List String} {filename : String} {o : CheckpointRun}
    (hok : checkpoint selectVssFn migrateFn g ns fp sel udfs filename =
      Except.ok o) :
    ∃ active res,
      profileLoop fp ns (activeVssOf g) = Except.ok active ∧
      selectVssFn (selectorLoaded sel (profiledGraph fp ns g) active
        (overlappingVssOf fp active)) = Except.ok res ∧
      migrateFn (margsOf (profiledGraph fp ns g) ns active res.1 res.2.1 udfs
        res.2.2 filename) = Except.ok () ∧
      o = { active_vss := active
            overlapping_vss := overlappingVssOf fp active
            selector_before := selectorLoaded sel (profiledGraph fp ns g) active
              (overlappingVssOf fp active)
            selector_after := res.2.2
            margs := margsOf (profiledGraph fp ns g) ns active res.1 res.2.1
              udfs res.2.2 filename
            migrate_success := true
            graph_after := profiledGraph fp ns g } := by
  unfold checkpoint at hok
  cases hprof : profileLoop fp ns (activeVssOf g) with
  | error e => rw [hprof] at hok; cases hok
  | ok active =>
    rw [hprof] at hok
    simp only at hok
    cases hsel : selectVssFn (selectorLoaded sel (profiledGraph fp ns g) active
        (overlappingVssOf fp active)) with
    | error e => rw [hsel] at hok; cases hok
    | ok res =>
      rw [hsel] at hok
      simp only at hok
      cases hmig : migrateFn (margsOf (profiledGraph fp ns g) ns active res.1
          res.2.1 udfs res.2.2 filename) with
      | error e => rw [hmig] at hok; cases hok
      | ok u =>
        rw [hmig] at hok
        cases hok
        exact ⟨active, res, rfl, hsel, by cases u; exact hmig, rfl⟩

theorem blacklisted_iff {attr : Option String} :
    blacklisted attr = true ↔
      ∃ s, attr = some s ∧
        (strContains s "dataprep.eda" = true ∨ strContains s "bokeh" = true) := by
  cases attr with
  | none => simp [blacklisted]
  | some s =>
    simp only [blacklisted, Option.some.injEq]
    by_cases hs : s = ""
    · subst hs
      constructor
      · intro h; simp at h
      · rintro ⟨t, ht, hc⟩
        rw [← ht] at hc
        revert hc
        decide
    · constructor
      · intro h
        simp only [Bool.and_eq_true, Bool.or_eq_true] at h
        exact ⟨s, rfl, h.2⟩
      · rintro ⟨t, ht, hc⟩
        subst ht
        simp only [Bool.and_eq_true, Bool.or_eq_true]
        exact ⟨by simp [hs], hc⟩

/-! ### Claims -/

/-- Claim C6 counterexample: in a graph whose only name has two versions, an
older non-deleted one and a most recent deleted one, the spec's "most recent
VS not marked deleted" exists (the older version) but the computed active set
is empty, because the code only inspects the last element of each version
list. -/
def vsAliveC6 : VariableSnapshot :=
  { name := "x", version := 0, deleted := false, size := PySize.finite 5 }

def vsDeadC6 : VariableSnapshot :=
  { name := "x", version := 1, deleted := true, size := PySize.finite 6 }

def gC6 : DependencyGraph :=
  { variable_snapshots := [("x", [vsAliveC6, vsDeadC6])], compute_edges := [] }

/-- Claim C6 is false as stated: the most recent non-deleted VS of name "x"
(namely version 0) is in the spec-following active set but not in the active
set the code computes. -/
theorem activeVss_misses_recent_nondeleted :
    vsAliveC6 ∈ specActiveVssOf gC6 ∧ vsAliveC6.deleted = false ∧
      vsAliveC6 ∉ activeVssOf gC6 ∧ activeVssOf gC6 = [] := by
  decide

/-- Claim C6 (amended): for every dependency graph, the active set computed
by checkpoint contains exactly, for every tracked variable name, the LAST
version of that name, and only when that last version is not marked deleted;
a name whose most recent version is deleted contributes nothing even if an
earlier version is non-deleted. The result is a pure function of the graph
state, hence deterministic. -/
theorem mem_activeVssOf_iff {g : DependencyGraph} {vs : VariableSnapshot} :
    vs ∈ activeVssOf g ↔
      ∃ p ∈ g.variable_snapshots, p.2.getLast? = some vs ∧ vs.deleted = false := by
  unfold activeVssOf
  rw [List.mem_filterMap]
  constructor
  · rintro ⟨p, hp, hcond⟩
    cases hlast : p.2.getLast? with
    | none => rw [hlast] at hcond; cases hcond
    | some v =>
      rw [hlast] at hcond
      by_cases hd : v.deleted
      · simp [hd] at hcond
      · simp only [hd, if_neg, Bool.false_eq_true, if_false, Option.some.injEq] at hcond
        subst hcond
        exact ⟨p, hp, hlast, by simpa using hd⟩
  · rintro ⟨p, hp, hlast, hdel⟩
    refine ⟨p, hp, ?_⟩
    rw [hlast]
    show (if vs.deleted = true then none else some vs) = some vs
    rw [hdel]
    rfl

/-- Claim C3 counterexample: with two distinct active VSs whose fingerprints
share region 7, the computed collection represents the single unordered
overlapping pair twice (once in each orientation), not once. -/
def vsaC3 : VariableSnapshot :=
  { name := "a", version := 0, deleted := false, size := PySize.finite 1 }

def vsbC3 : VariableSnapshot :=
  { name := "b", version := 0, deleted := false, size := PySize.finite 2 }

def fpC3 : List (String × FingerprintEntry) :=
  [("a", { regions := [7], unserializable := false }),
   ("b", { regions := [7], unserializable := false })]

/-- Claim C3 is false as stated: the unordered pair of the two overlapping
VSs is represented twice in the computed collection, not once. -/
theorem overlappingVss_pair_twice :
    vsaC3 ≠ vsbC3 ∧
    (overlappingVssOf fpC3 [vsaC3, vsbC3]).count (vsaC3, vsbC3) +
      (overlappingVssOf fpC3 [vsaC3, vsbC3]).count (vsbC3, vsaC3) = 2 := by
  decide

/-- Claim C3 (amended): the computed overlapping_vss collection contains
exactly the ORDERED pairs (vs1, vs2) of distinct active VSs, both of whose
names are present in the fingerprint table, whose storage-region-identifier
sets intersect; consequently each unordered overlapping pair is represented
twice, once in each orientation, and no pair with disjoint region sets or
with a member absent from the table appears. -/
theorem overlappingVss_mem_characterization
    {fp : List (String × FingerprintEntry)} {active : List VariableSnapshot}
    {v1 v2 : VariableSnapshot} :
    (v1, v2) ∈ overlappingVssOf fp active ↔
      v1 ∈ active ∧ v2 ∈ active ∧ v1 ≠ v2 ∧
      ∃ f1 f2, List.lookup v1.name fp = some f1 ∧
        List.lookup v2.name fp = some f2 ∧
        regionsIntersect f1.regions f2.regions = true := by
  rw [mem_overlappingVssOf, overlapPair_iff]

/-- Claim C1: whenever checkpoint succeeds and the selector's returned
vss_to_migrate is a subset of the computed active set, the partition
satisfies vss_to_migrate union vss_to_recompute = active_vss and
vss_to_migrate inter vss_to_recompute = empty (vss_to_recompute is the set
difference active_vss - vss_to_migrate). -/
theorem checkpoint_partition_complete
    {selectVssFn : Selector →
      Except String (List VariableSnapshot × List ComputeEdge × Selector)}
    {migrateFn : MigrateArgs → Except String Unit}
    {g : DependencyGraph} {ns : List (String × PyObj)}
    {fp : List (String × FingerprintEntry)} {sel : Selector}
    {udfs : List String} {filename : String} {o : CheckpointRun}
    (hok : checkpoint selectVssFn migrateFn g ns fp sel udfs filename =
      Except.ok o)
    (hsub : ∀ x ∈ o.margs.vss_to_migrate, x ∈ o.active_vss) :
    ∀ x, ((x ∈ o.margs.vss_to_migrate ∨ x ∈ o.margs.vss_to_recompute) ↔
        x ∈ o.active_vss) ∧
      ¬ (x ∈ o.margs.vss_to_migrate ∧ x ∈ o.margs.vss_to_recompute) := by
  rcases checkpoint_ok_inv hok with ⟨active, res, hprof, hsel, hmig, ho⟩
  subst ho
  simp only [margsOf] at hsub ⊢
  intro x
  constructor
  · constructor
    · rintro (hx | hx)
      · exact hsub x hx
      · exact (List.mem_filter.mp hx).1
    · intro hx
      by_cases hm : x ∈ res.1
      · exact Or.inl hm
      · refine Or.inr (List.mem_filter.mpr ⟨hx, ?_⟩)
        simpa using hm
  · rintro ⟨h1, h2⟩
    have h3 := (List.mem_filter.mp h2).2
    simp only [decide_eq_true_eq] at h3
    exact h3 h1

/-- Claim C2: for an active VS whose name is in the fingerprint table (and
whose live value exists), the profiling loop body succeeds and assigns
size = infinity exactly when the fingerprint marks the object unserializable
or the live value's __module__ string contains "dataprep.eda" or "bokeh";
otherwise it assigns the byte count measured by the external size profiler.
The resulting VS is the one the loop puts into the profiled active list. -/
theorem profile_size_assignment
    {fp : List (String × FingerprintEntry)} {ns : List (String × PyObj)}
    {vs : VariableSnapshot} {fpe : FingerprintEntry} {obj : PyObj}
    (hfp : List.lookup vs.name fp = some fpe)
    (hns : List.lookup vs.name ns = some obj) :
    ∃ vs2, profileVs fp ns vs = Except.ok vs2 ∧
      (vs2.size = PySize.infinity ↔
        (fpe.unserializable = true ∨
          ∃ s, obj.moduleAttr = some s ∧
            (strContains s "dataprep.eda" = true ∨
              strContains s "bokeh" = true))) ∧
      (vs2.size ≠ PySize.infinity →
        vs2.size = PySize.finite obj.profiledBytes) ∧
      (∀ l l2, profileLoop fp ns l = Except.ok l2 → vs ∈ l → vs2 ∈ l2) := by
  have hpv : profileVs fp ns vs =
      (if fpe.unserializable then Except.ok { vs with size := PySize.infinity }
       else if blacklisted obj.moduleAttr then
         Except.ok { vs with size := PySize.infinity }
       else Except.ok { vs with size := PySize.finite obj.profiledBytes }) := by
    unfold profileVs
    rw [hfp, hns]
  by_cases h1 : fpe.unserializable
  · refine ⟨{ vs with size := PySize.infinity }, by rw [hpv]; simp [h1], ?_, ?_, ?_⟩
    · simp [h1]
    · intro h; exact absurd rfl h
    · intro l l2 hloop hmem
      exact profileLoop_ok_mem hloop hmem (by rw [hpv]; simp [h1])
  · by_cases h2 : blacklisted obj.moduleAttr
    · refine ⟨{ vs with size := PySize.infinity }, by rw [hpv]; simp [h1, h2], ?_, ?_, ?_⟩
      · simp only [true_iff]
        exact Or.inr (blacklisted_iff.mp h2)
      · intro h; exact absurd rfl h
      · intro l l2 hloop hmem
        exact profileLoop_ok_mem hloop hmem (by rw [hpv]; simp [h1, h2])
    · refine ⟨{ vs with size := PySize.finite obj.profiledBytes },
        by rw [hpv]; simp [h1, h2], ?_, ?_, ?_⟩
      · simp only [reduceCtorEq, false_iff]
        rintro (hu | hb)
        · exact h1 hu
        · exact h2 (blacklisted_iff.mpr hb)
      · intro _; rfl
      · intro l l2 hloop hmem
        exact profileLoop_ok_mem hloop hmem (by rw [hpv]; simp [h1, h2])

/-- Claim C4: an active VS whose name is absent from the fingerprint table
does not make the checkpoint fail: the profiling loop body skips it (after a
printed warning) and passes it through unchanged, and it is a member of no
pair of overlapping_vss, so it is excluded from the sizing and aliasing
inputs the optimizer uses to justify migrating a variable. -/
theorem missing_fingerprint_recoverable
    {fp : List (String × FingerprintEntry)} {ns : List (String × PyObj)}
    {active : List VariableSnapshot} {vs : VariableSnapshot}
    (_hvs : vs ∈ active) (hfp : List.lookup vs.name fp = none) :
    profileVs fp ns vs = Except.ok vs ∧
    (∀ l2, profileLoop fp ns active = Except.ok l2 → vs ∈ l2) ∧
    (∀ p ∈ overlappingVssOf fp active, p.1 ≠ vs ∧ p.2 ≠ vs) := by
  refine ⟨profileVs_skip hfp, ?_, ?_⟩
  · intro l2 hloop
    exact profileLoop_ok_mem hloop _hvs (profileVs_skip hfp)
  · rintro ⟨p1, p2⟩ hp
    rcases mem_overlappingVssOf.mp hp with ⟨h1, h2, hov⟩
    rcases overlapPair_iff.mp hov with ⟨hne, f1, f2, hl1, hl2, hint⟩
    constructor
    · intro h
      have h9 : p1 = vs := h
      rw [h9, hfp] at hl1
      cases hl1
    · intro h
      have h9 : p2 = vs := h
      rw [h9, hfp] at hl2
      cases hl2

/-- Claim C5: a failure of the optimizer (select_vss) or of the checkpoint
writer (migrate) propagates to the caller as a failed checkpoint result, and
checkpoint returns success only when the writer succeeded on exactly the
arguments it was given: there is no path returning success after a writer
failure. -/
theorem checkpoint_failure_propagation
    {selectVssFn : Selector →
      Except String (List VariableSnapshot × List ComputeEdge × Selector)}
    {migrateFn : MigrateArgs → Except String Unit}
    {g : DependencyGraph} {ns : List (String × PyObj)}
    {fp : List (String × FingerprintEntry)} {sel : Selector}
    {udfs : List String} {filename : String} :
    (∀ active e,
        profileLoop fp ns (activeVssOf g) = Except.ok active →
        selectVssFn (selectorLoaded sel (profiledGraph fp ns g) active
          (overlappingVssOf fp active)) = Except.error e →
        checkpoint selectVssFn migrateFn g ns fp sel udfs filename =
          Except.error (CheckpointErr.selectorErr e)) ∧
    (∀ active res e,
        profileLoop fp ns (activeVssOf g) = Except.ok active →
        selectVssFn (selectorLoaded sel (profiledGraph fp ns g) active
          (overlappingVssOf fp active)) = Except.ok res →
        migrateFn (margsOf (profiledGraph fp ns g) ns active res.1 res.2.1
          udfs res.2.2 filename) = Except.error e →
        checkpoint selectVssFn migrateFn g ns fp sel udfs filename =
          Except.error (CheckpointErr.migrateErr e)) ∧
    (∀ o, checkpoint selectVssFn migrateFn g ns fp sel udfs filename =
        Except.ok o →
      o.migrate_success = true ∧ migrateFn o.margs = Except.ok ()) := by
  refine ⟨?_, ?_, ?_⟩
  · intro active e hprof hsel
    unfold checkpoint
    rw [hprof]
    simp only
    rw [hsel]
  · intro active res e hprof hsel hmig
    unfold checkpoint
    rw [hprof]
    simp only
    rw [hsel]
    simp only
    rw [hmig]
  · intro o hok
    rcases checkpoint_ok_inv hok with ⟨active, res, hprof, hsel, hmig, ho⟩
    subst ho
    exact ⟨rfl, hmig⟩

/-- Claim C7: on every successful checkpoint call, the checkpoint writer is
invoked with the selector's retained optimizer state (recomputation_ces and
overlapping_vss read back from the selector after select_vss ran), together
with the partition (vss_to_migrate, the set difference vss_to_recompute, and
ces_to_recompute) and the target filename; migrate succeeded on exactly
those arguments. -/
theorem migrate_invoked_with_selector_state
    {selectVssFn : Selector →
      Except String (List VariableSnapshot × List ComputeEdge × Selector)}
    {migrateFn : MigrateArgs → Except String Unit}
    {g : DependencyGraph} {ns : List (String × PyObj)}
    {fp : List (String × FingerprintEntry)} {sel : Selector}
    {udfs : List String} {filename : String} {o : CheckpointRun}
    (hok : checkpoint selectVssFn migrateFn g ns fp sel udfs filename =
      Except.ok o) :
    migrateFn o.margs = Except.ok () ∧
    o.margs.recomputation_ces = o.selector_after.recomputation_ces ∧
    o.margs.overlapping_vss = o.selector_after.overlapping_vss ∧
    o.margs.vss_to_recompute =
      vssToRecompute o.active_vss o.margs.vss_to_migrate ∧
    o.margs.filename = filename ∧
    o.margs.udfs = udfs ∧
    o.margs.graph = o.graph_after := by
  rcases checkpoint_ok_inv hok with ⟨active, res, hprof, hsel, hmig, ho⟩
  subst ho
  exact ⟨hmig, rfl, rfl, rfl, rfl, rfl, rfl⟩

/-- Non-size shape of a VS: the fields checkpoint never writes. -/
def vsShape (vs : VariableSnapshot) : String × Nat × Bool :=
  (vs.name, vs.version, vs.deleted)

theorem updateLastVs_shape (fp : List (String × FingerprintEntry))
    (ns : List (String × PyObj)) (l : List VariableSnapshot) :
    (updateLastVs fp ns l).map vsShape = l.map vsShape := by
  unfold updateLastVs
  cases hlast : l.getLast? with
  | none => rfl
  | some vs =>
    show (List.map vsShape (if vs.deleted = true then l
        else match profileVs fp ns vs with
          | Except.ok vs2 => l.dropLast ++ [vs2]
          | Except.error _ => l)) = List.map vsShape l
    by_cases hdel : vs.deleted = true
    · rw [if_pos hdel]
    · rw [if_neg hdel]
      cases hpv : profileVs fp ns vs with
      | error e => rfl
      | ok vs2 =>
        have hne : l ≠ [] := by
          intro hl
          rw [hl] at hlast
          cases hlast
        have hget : l.getLast hne = vs := by
          have := List.getLast?_eq_getLast l hne
          rw [hlast] at this
          exact (Option.some.injEq _ _ ▸ this.symm)
        have hshape := profileVs_shape hpv
        have hl2 : l.dropLast ++ [l.getLast hne] = l :=
          List.dropLast_append_getLast hne
        calc (l.dropLast ++ [vs2]).map vsShape
            = l.dropLast.map vsShape ++ [vsShape vs2] := by
              rw [List.map_append]; rfl
          _ = l.dropLast.map vsShape ++ [vsShape vs] := by
              unfold vsShape
              rw [hshape.1, hshape.2.1, hshape.2.2]
          _ = (l.dropLast ++ [vs]).map vsShape := by
              rw [List.map_append]; rfl
          _ = l.map vsShape := by rw [← hget, hl2]

/-- Claim C8: a successful checkpoint call never mutates the graph topology:
the names, their order, the per-name version lists (their order, names,
versions and deleted flags) and the compute edges are the same after the
call as before; only the per-VS size field may differ. -/
theorem checkpoint_preserves_topology
    {selectVssFn : Selector →
      Except String (List VariableSnapshot × List ComputeEdge × Selector)}
    {migrateFn : MigrateArgs → Except String Unit}
    {g : DependencyGraph} {ns : List (String × PyObj)}
    {fp : List (String × FingerprintEntry)} {sel : Selector}
    {udfs : List String} {filename : String} {o : CheckpointRun}
    (hok : checkpoint selectVssFn migrateFn g ns fp sel udfs filename =
      Except.ok o) :
    o.graph_after.compute_edges = g.compute_edges ∧
    o.graph_after.variable_snapshots.map (fun p => (p.1, p.2.map vsShape)) =
      g.variable_snapshots.map (fun p => (p.1, p.2.map vsShape)) := by
  rcases checkpoint_ok_inv hok with ⟨active, res, hprof, hsel, hmig, ho⟩
  subst ho
  refine ⟨rfl, ?_⟩
  show ((profiledGraph fp ns g).variable_snapshots).map
      (fun p => (p.1, p.2.map vsShape)) =
    g.variable_snapshots.map (fun p => (p.1, p.2.map vsShape))
  unfold profiledGraph
  rw [List.map_map]
  apply List.map_congr_left
  intro p _
  show (p.1, (updateLastVs fp ns p.2).map vsShape) = (p.1, p.2.map vsShape)
  rw [updateLastVs_shape]

/-- Claim C9: if some active VS has its name in the fingerprint table but
missing from the shell's user namespace, checkpoint raises a lookup error
during profiling (a KeyError from shell.user_ns[name]) instead of recovering
with a warning as in the missing-fingerprint case. -/
theorem missing_user_ns_raises
    {selectVssFn : Selector →
      Except String (List VariableSnapshot × List ComputeEdge × Selector)}
    {migrateFn : MigrateArgs → Except String Unit}
    {g : DependencyGraph} {ns : List (String × PyObj)}
    {fp : List (String × FingerprintEntry)} {sel : Selector}
    {udfs : List String} {filename : String} {vs : VariableSnapshot}
    (hvs : vs ∈ activeVssOf g)
    (hfp : (List.lookup vs.name fp).isSome = true)
    (hns : List.lookup vs.name ns = none) :
    ∃ n, checkpoint selectVssFn migrateFn g ns fp sel udfs filename =
      Except.error (CheckpointErr.keyError n) := by
  have herr : profileVs fp ns vs =
      Except.error (CheckpointErr.keyError vs.name) := by
    unfold profileVs
    cases hl : List.lookup vs.name fp with
    | none => rw [hl] at hfp; cases hfp
    | some fpe =>
      rw [hns]
  rcases profileLoop_error_of_mem hvs herr with ⟨e, he⟩
  rcases profileLoop_error_shape he with ⟨n, hn⟩
  refine ⟨n, ?_⟩
  unfold checkpoint
  rw [he, hn]

/-- Claim C10: an active VS whose name is absent from the fingerprint table
has its size field left completely unchanged by the profiling loop (neither
measured nor set to infinity), and on a successful run the identical VS
(all fields intact, size included) is still a member of the profiled active
set and of the selector.active_vss field handed to select_vss. -/
theorem missing_fingerprint_size_unchanged
    {selectVssFn : Selector →
      Except String (List VariableSnapshot × List ComputeEdge × Selector)}
    {migrateFn : MigrateArgs → Except String Unit}
    {g : DependencyGraph} {ns : List (String × PyObj)}
    {fp : List (String × FingerprintEntry)} {sel : Selector}
    {udfs : List String} {filename : String} {o : CheckpointRun}
    {vs : VariableSnapshot}
    (hvs : vs ∈ activeVssOf g)
    (hfp : List.lookup vs.name fp = none)
    (hok : checkpoint selectVssFn migrateFn g ns fp sel udfs filename =
      Except.ok o) :
    profileVs fp ns vs = Except.ok vs ∧
    vs ∈ o.active_vss ∧
    vs ∈ o.selector_before.active_vss := by
  rcases checkpoint_ok_inv hok with ⟨active, res, hprof, hsel, hmig, ho⟩
  subst ho
  have hskip : profileVs fp ns vs = Except.ok vs := profileVs_skip hfp
  have hmem : vs ∈ active := profileLoop_ok_mem hprof hvs hskip
  exact ⟨hskip, hmem, hmem⟩

/-! ### Concrete witness scenario: a session with three variables, where
"a" is a plain serializable object, "b" is backed by bokeh (blacklisted) and
shares storage region 1 with "a", and "c" is missing from the fingerprint
table. -/

def vaW : VariableSnapshot :=
  { name := "a", version := 0, deleted := false, size := PySize.finite 5 }

def vbW : VariableSnapshot :=
  { name := "b", version := 0, deleted := false, size := PySize.finite 7 }

def vcW : VariableSnapshot :=
  { name := "c", version := 0, deleted := false, size := PySize.finite 11 }

def fpW : List (String × FingerprintEntry) :=
  [("a", { regions := [1], unserializable := false }),
   ("b", { regions := [1], unserializable := false })]

def nsW : List (String × PyObj) :=
  [("a", { moduleAttr := some "numpy", profiledBytes := 42 }),
   ("b", { moduleAttr := some "bokeh.plotting", profiledBytes := 9 }),
   ("c", { moduleAttr := none, profiledBytes := 11 })]

def gW : DependencyGraph :=
  { variable_snapshots := [("a", [vaW]), ("b", [vbW]), ("c", [vcW])]
    compute_edges := [{ cell_num := 0, cell_runtime := 3 }] }

def selW : Selector :=
  { dependency_graph := none, active_vss := [], overlapping_vss := []
    recomputation_ces := [{ cell_num := 1, cell_runtime := 4 }] }

/-- A selector strategy that migrates the whole active set. -/
def selectAllW : Selector →
    Except String (List VariableSnapshot × List ComputeEdge × Selector) :=
  fun s => Except.ok (s.active_vss, [], s)

def migrateOkW : MigrateArgs → Except String Unit := fun _ => Except.ok ()

def migrateFailW : MigrateArgs → Except String Unit :=
  fun _ => Except.error "disk full"

def vaProfW : VariableSnapshot :=
  { name := "a", version := 0, deleted := false, size := PySize.finite 42 }

def vbProfW : VariableSnapshot :=
  { name := "b", version := 0, deleted := false, size := PySize.infinity }

def activeProfW : List VariableSnapshot := [vaProfW, vbProfW, vcW]

def sel1W : Selector :=
  selectorLoaded selW (profiledGraph fpW nsW gW) activeProfW
    (overlappingVssOf fpW activeProfW)

def resW : List VariableSnapshot × List ComputeEdge × Selector :=
  (activeProfW, [], sel1W)

def runW : CheckpointRun :=
  match checkpoint selectAllW migrateOkW gW nsW fpW selW [] "ckpt" with
  | Except.ok o => o
  | Except.error _ =>
    { active_vss := [], overlapping_vss := [], selector_before := selW,
      selector_after := selW,
      margs := { graph := gW, shell_ns := nsW, vss_to_migrate := [],
                 vss_to_recompute := [], ces_to_recompute := [], udfs := [],
                 recomputation_ces := [], overlapping_vss := [],
                 filename := "ckpt" },
      migrate_success := false, graph_after := gW }

/-- Witness for claim C1 at the concrete scenario. -/
theorem checkpoint_partition_complete_witness :
    ((vaProfW ∈ runW.margs.vss_to_migrate ∨
        vaProfW ∈ runW.margs.vss_to_recompute) ↔
      vaProfW ∈ runW.active_vss) ∧
    ¬ (vaProfW ∈ runW.margs.vss_to_migrate ∧
        vaProfW ∈ runW.margs.vss_to_recompute) :=
  @checkpoint_partition_complete selectAllW migrateOkW gW nsW fpW selW []
    "ckpt" runW (by rfl) (by decide) vaProfW

/-- Witness for claim C2 at the concrete scenario (the bokeh-backed
variable "b"). -/
theorem profile_size_assignment_witness :
    ∃ vs2, profileVs fpW nsW vbW = Except.ok vs2 ∧
      (vs2.size = PySize.infinity ↔
        ((false : Bool) = true ∨
          ∃ s, (some "bokeh.plotting" : Option String) = some s ∧
            (strContains s "dataprep.eda" = true ∨
              strContains s "bokeh" = true))) ∧
      (vs2.size ≠ PySize.infinity → vs2.size = PySize.finite 9) ∧
      (∀ l l2, profileLoop fpW nsW l = Except.ok l2 → vbW ∈ l → vs2 ∈ l2) :=
  @profile_size_assignment fpW nsW vbW
    { regions := [1], unserializable := false }
    { moduleAttr := some "bokeh.plotting", profiledBytes := 9 }
    (by rfl) (by rfl)

/-- Witness for claim C4 at the concrete scenario (the unfingerprinted
variable "c"). -/
theorem missing_fingerprint_recoverable_witness :
    profileVs fpW nsW vcW = Except.ok vcW ∧
    (∀ l2, profileLoop fpW nsW [vaW, vbW, vcW] = Except.ok l2 → vcW ∈ l2) ∧
    (∀ p ∈ overlappingVssOf fpW [vaW, vbW, vcW], p.1 ≠ vcW ∧ p.2 ≠ vcW) :=
  @missing_fingerprint_recoverable fpW nsW [vaW, vbW, vcW] vcW
    (by decide) (by rfl)

/-- Witness for claim C5: a failing writer yields a failed checkpoint result
at the concrete scenario, and the successful run returned success only with
the writer succeeding on the passed arguments. -/
theorem checkpoint_failure_propagation_witness :
    checkpoint selectAllW migrateFailW gW nsW fpW selW [] "ckpt" =
      Except.error (CheckpointErr.migrateErr "disk full") ∧
    (runW.migrate_success = true ∧ migrateOkW runW.margs = Except.ok ()) :=
  ⟨(@checkpoint_failure_propagation selectAllW migrateFailW gW nsW fpW selW
      [] "ckpt").2.1 activeProfW resW "disk full" (by rfl) (by rfl) (by rfl),
   (@checkpoint_failure_propagation selectAllW migrateOkW gW nsW fpW selW
      [] "ckpt").2.2 runW (by rfl)⟩

/-- Witness for claim C7 at the concrete scenario. -/
theorem migrate_invoked_with_selector_state_witness :
    migrateOkW runW.margs = Except.ok () ∧
    runW.margs.recomputation_ces = runW.selector_after.recomputation_ces ∧
    runW.margs.overlapping_vss = runW.selector_after.overlapping_vss ∧
    runW.margs.vss_to_recompute =
      vssToRecompute runW.active_vss runW.margs.vss_to_migrate ∧
    runW.margs.filename = "ckpt" ∧
    runW.margs.udfs = [] ∧
    runW.margs.graph = runW.graph_after :=
  @migrate_invoked_with_selector_state selectAllW migrateOkW gW nsW fpW selW
    [] "ckpt" runW (by rfl)

/-- Witness for claim C8 at the concrete scenario. -/
theorem checkpoint_preserves_topology_witness :
    runW.graph_after.compute_edges = gW.compute_edges ∧
    runW.graph_after.variable_snapshots.map (fun p => (p.1, p.2.map vsShape)) =
      gW.variable_snapshots.map (fun p => (p.1, p.2.map vsShape)) :=
  @checkpoint_preserves_topology selectAllW migrateOkW gW nsW fpW selW []
    "ckpt" runW (by rfl)

/-- Witness scenario for claim C9: variable "d" is fingerprinted but absent
from the shell namespace. -/
def vdW : VariableSnapshot :=
  { name := "d", version := 0, deleted := false, size := PySize.finite 13 }

def gW9 : DependencyGraph :=
  { variable_snapshots := [("a", [vaW]), ("d", [vdW])], compute_edges := [] }

def fpW9 : List (String × FingerprintEntry) :=
  [("a", { regions := [1], unserializable := false }),
   ("d", { regions := [5], unserializable := false })]

/-- Witness for claim C9 at the concrete scenario. -/
theorem missing_user_ns_raises_witness :
    ∃ n, checkpoint selectAllW migrateOkW gW9 nsW fpW9 selW [] "ckpt" =
      Except.error (CheckpointErr.keyError n) :=
  @missing_user_ns_raises selectAllW migrateOkW gW9 nsW fpW9 selW [] "ckpt"
    vdW (by decide) (by rfl) (by decide)

/-- Witness for claim C10 at the concrete scenario (the unfingerprinted
variable "c" survives profiling unchanged and reaches the selector). -/
theorem missing_fingerprint_size_unchanged_witness :
    profileVs fpW nsW vcW = Except.ok vcW ∧
    vcW ∈ runW.active_vss ∧
    vcW ∈ runW.selector_before.active_vss :=
  @missing_fingerprint_size_unchanged selectAllW migrateOkW gW nsW fpW selW
    [] "ckpt" runW vcW (by decide) (by rfl) (by rfl)
